import Mathlib

set_option autoImplicit false

/-!
Shallow embedding of `src/backend/main.py` of the review-analyzer service.

The effectful parts (HTTP requests to the Ollama inference server) are
modelled by oracles: `query_ollama` receives a `transport : Nat → Outcome`
giving the outcome of each HTTP attempt, and `analyze_review` receives an
environment `Nat → Nat → Outcome` giving, for each of its three sequential
`query_ollama` invocations, the outcome of each attempt of that invocation.
Python exceptions that escape a function are modelled with `Except`;
Python's implicit `None` return (when the retry loop body never runs) is
modelled by `Option` inside the success case.
-/

namespace ReviewAnalyzer

/-- ASCII whitespace stripped by Python's `str.strip()` (space, tab,
newline, carriage return, vertical tab, form feed). -/
def pyIsSpace (c : Char) : Bool :=
  c = ' ' || c = '\t' || c = '\n' || c = '\r' || c = '\x0b' || c = '\x0c'

/-- Python `str.strip()` on a character list: drop whitespace from both ends. -/
def pyStripList (l : List Char) : List Char :=
  ((l.dropWhile pyIsSpace).reverse.dropWhile pyIsSpace).reverse

/-- Python `str.strip()`. -/
def pyStrip (s : String) : String :=
  ⟨pyStripList s.data⟩

/-- Python `str.split('\n')`: split on every newline, keeping empty parts;
the result is always non-empty. -/
def pySplitNl : List Char → List (List Char)
  | [] => [[]]
  | c :: cs =>
    if c = '\n' then [] :: pySplitNl cs
    else
      match pySplitNl cs with
      | [] => [[c]]
      | h :: t => (c :: h) :: t

/-- The response clean-up applied to each field in `analyze_review`
(main.py lines 117-119): `s.split('\n')[0].strip()`. -/
def clean (s : String) : String :=
  pyStrip ⟨(pySplitNl s.data).headD []⟩

/-- FastAPI `HTTPException(status_code=..., detail=...)`: the single
exception type raised by the backend; callers distinguish the kind by the
status code. -/
structure HTTPException where
  status_code : Nat
  detail : String
deriving DecidableEq

/-- The `Unreachable` error: HTTPException raised after the final retry on a
connection-refused condition (main.py lines 44-47). -/
def unreachableError : HTTPException :=
  ⟨503, "Cannot connect to Ollama. Make sure Ollama is running on localhost:11434"⟩

/-- The `TimedOut` error: HTTPException raised after the final retry on a timeout
(main.py lines 50-53). -/
def timedOutError : HTTPException :=
  ⟨504, "Ollama request timed out. Please try again."⟩

/-- The `ModelError` error: HTTPException raised after the final retry on any other
exception (main.py lines 57-60). -/
def modelError : HTTPException :=
  ⟨500, "Error processing request with AI model"⟩

/-- The `EmptyInput` error: HTTPException raised on empty or whitespace-only review
text (main.py line 80). -/
def emptyInputError : HTTPException :=
  ⟨400, "Review text cannot be empty"⟩

/-- HTTPException raised by the outer handler of `analyze_review` for a
non-HTTPException exception (main.py line 131). -/
def internalServerError : HTTPException :=
  ⟨500, "Internal server error"⟩

/-- Outcome of one HTTP attempt inside `query_ollama`, as seen by the
`try` block of main.py lines 25-41:
* `ok content`: the POST succeeded, `raise_for_status` passed and the JSON
  body parsed; `content` is the value of the `response` field when present
  (`none` models a body with no `response` field);
* `connectionError`: `requests.exceptions.ConnectionError`;
* `timeoutError`: `requests.exceptions.Timeout`;
* `otherError`: any other exception (non-2xx status via
  `raise_for_status`, malformed JSON, anything else). -/
inductive Outcome where
  | ok (content : Option String)
  | connectionError
  | timeoutError
  | otherError
deriving DecidableEq

/-- True when the outcome is a raised exception (a transport failure that
the retry loop catches). -/
def Outcome.isFailure : Outcome → Bool
  | .ok _ => false
  | _ => true

/-- The retry loop of `query_ollama` (main.py lines 24-60), iterating over
the list of attempt indices (`range(max_retries)` in Python).  Returns the
function's result together with the number of HTTP attempts issued.
A successful attempt returns `result.get("response", "").strip()`; a
failing attempt re-raises as a typed `HTTPException` when it is the last
attempt (`attempt == max_retries - 1`) and otherwise falls through to the
next iteration.  An exhausted (or never entered) loop returns Python
`None`, modelled as `.ok none`. -/
def queryLoop (transport : Nat → Outcome) (max_retries : Nat) :
    List Nat → Except HTTPException (Option String) × Nat
  | [] => (.ok none, 0)
  | attempt :: rest =>
    match transport attempt with
    | .ok content => (.ok (some (pyStrip (content.getD ""))), 1)
    | .connectionError =>
      if attempt = max_retries - 1 then (.error unreachableError, 1)
      else
        let r := queryLoop transport max_retries rest
        (r.1, r.2 + 1)
    | .timeoutError =>
      if attempt = max_retries - 1 then (.error timedOutError, 1)
      else
        let r := queryLoop transport max_retries rest
        (r.1, r.2 + 1)
    | .otherError =>
      if attempt = max_retries - 1 then (.error modelError, 1)
      else
        let r := queryLoop transport max_retries rest
        (r.1, r.2 + 1)

/-- The result of `query_ollama(prompt, max_retries)` together with the number of HTTP
attempts it issues. -/
def queryRun (transport : Nat → Outcome) (max_retries : Nat) :
    Except HTTPException (Option String) × Nat :=
  queryLoop transport max_retries (List.range max_retries)

/-- Function `query_ollama(prompt, max_retries)` (main.py lines 22-60).  The prompt
only feeds the request payload; the server's behaviour is the `transport`
oracle. -/
def query_ollama (prompt : String) (transport : Nat → Outcome)
    (max_retries : Nat) : Except HTTPException (Option String) :=
  (queryRun transport max_retries).1

/-- Number of HTTP attempts issued by `query_ollama(prompt, max_retries)`. -/
def query_ollama_attempts (prompt : String) (transport : Nat → Outcome)
    (max_retries : Nat) : Nat :=
  (queryRun transport max_retries).2

/-- The sentiment prompt f-string of main.py lines 83-87. -/
def sentiment_prompt (text : String) : String :=
  "Analyze the sentiment of this product review and respond with only one word: Positive, Neutral, or Negative.\n\nReview: \"" ++ text ++ "\"\n\nSentiment:"

/-- The topic prompt f-string of main.py lines 90-101 (the source line
listing Delivery/Shipping carries two trailing spaces). -/
def topic_prompt (text : String) : String :=
  "Identify the main topic or issue discussed in this product review. Choose from these categories or provide a brief 2-3 word description:\n- Product Quality\n- Delivery/Shipping  \n- Price/Value\n- Customer Service\n- Design/Appearance\n- Functionality\n- Durability\n\nReview: \"" ++ text ++ "\"\n\nMain Topic:"

/-- The summary prompt f-string of main.py lines 104-108. -/
def summary_prompt (text : String) : String :=
  "Summarize this product review in one concise sentence (maximum 15 words):\n\nReview: \"" ++ text ++ "\"\n\nSummary:"

/-- The three analysis kinds. -/
inductive AnalysisKind where
  | Sentiment
  | Topic
  | Summary
deriving DecidableEq

/-- The spec's `buildPrompt`: dispatch to the three prompt templates of
`analyze_review`. -/
def buildPrompt (text : String) : AnalysisKind → String
  | .Sentiment => sentiment_prompt text
  | .Topic => topic_prompt text
  | .Summary => summary_prompt text

/-- The record returned by a successful `analyze_review` (main.py lines
121-125). -/
structure AnalysisResult where
  sentiment : String
  topic : String
  summary : String
deriving DecidableEq

/-- Result of one `analyze_review` call together with the number of
`query_ollama` invocations issued and the total number of HTTP attempts
issued (its observable network behaviour). -/
structure AnalyzeOutcome where
  result : Except HTTPException AnalysisResult
  queries : Nat
  attempts : Nat

/-- Function `analyze_review(text)` (main.py lines 76-131).  `env i` is the
transport oracle seen by the i-th `query_ollama` invocation (0 sentiment,
1 topic, 2 summary); each invocation uses the default `max_retries = 3`.
An `HTTPException` raised by `query_ollama` propagates unchanged (the
`except HTTPException: raise` handler) and later invocations are never
issued.  If a `query_ollama` call returned Python `None` (only possible
with non-positive `max_retries`, hence dead here), the clean-up step would
raise `AttributeError`, caught by the outer handler as a 500. -/
def analyze_review (text : String) (env : Nat → Nat → Outcome) : AnalyzeOutcome :=
  if pyStrip text = "" then
    ⟨.error emptyInputError, 0, 0⟩
  else
    let r1 := queryRun (env 0) 3
    match r1.1 with
    | .error e => ⟨.error e, 1, r1.2⟩
    | .ok s1 =>
      let r2 := queryRun (env 1) 3
      match r2.1 with
      | .error e => ⟨.error e, 2, r1.2 + r2.2⟩
      | .ok s2 =>
        let r3 := queryRun (env 2) 3
        match r3.1 with
        | .error e => ⟨.error e, 3, r1.2 + r2.2 + r3.2⟩
        | .ok s3 =>
          match s1, s2, s3 with
          | some sentiment, some topic, some summary =>
            ⟨.ok ⟨clean sentiment, clean topic, clean summary⟩, 3,
              r1.2 + r2.2 + r3.2⟩
          | _, _, _ => ⟨.error internalServerError, 3, r1.2 + r2.2 + r3.2⟩

/-- Outcome of the probe request of `health_check` (main.py line 70):
either the server replied with some HTTP status, or `requests.get` raised. -/
inductive ProbeOutcome where
  | response (status : Nat)
  | connectionError
  | timeoutError
  | otherError
deriving DecidableEq

/-- Method `requests.Response.raise_for_status()` raises `HTTPError` exactly for
status codes 400-599. -/
def raise_for_status_raises (status : Nat) : Bool :=
  decide (400 ≤ status) && decide (status < 600)

/-- The JSON body returned by `health_check`. -/
structure HealthStatus where
  status : String
  ollama : String
deriving DecidableEq

/-- Function `health_check()` (main.py lines 66-74): probe the listing endpoint;
the bare `except:` collapses every exception (connection error, timeout,
`raise_for_status` on a 4xx/5xx, anything else) to the unhealthy body. -/
def health_check (probe : ProbeOutcome) : HealthStatus :=
  match probe with
  | .response status =>
    if raise_for_status_raises status then ⟨"unhealthy", "disconnected"⟩
    else ⟨"healthy", "connected"⟩
  | _ => ⟨"unhealthy", "disconnected"⟩

end ReviewAnalyzer

namespace ReviewAnalyzer

lemma pySplitNl_ne_nil (l : List Char) : pySplitNl l ≠ [] := by
  cases l with
  | nil => simp [pySplitNl]
  | cons c cs =>
    simp only [pySplitNl]
    split
    · simp
    · split <;> simp

lemma pySplitNl_headD (l : List Char) :
    (pySplitNl l).headD [] = l.takeWhile (fun c => c ≠ '\n') := by
  induction l with
  | nil => rfl
  | cons c cs ih =>
    simp only [pySplitNl]
    by_cases hc : c = '\n'
    · simp [hc, List.takeWhile_cons]
    · cases hs : pySplitNl cs with
      | nil => exact absurd hs (pySplitNl_ne_nil cs)
      | cons h t =>
        rw [if_neg hc]
        rw [hs] at ih
        simp only [List.headD_cons] at ih
        rw [List.takeWhile_cons, if_pos (by simp [hc]), ← ih]
        rfl

lemma takeWhile_eq_self_of {α : Type} {p : α → Bool} {l : List α}
    (h : ∀ c ∈ l, p c = true) : l.takeWhile p = l := by
  induction l with
  | nil => rfl
  | cons a l ih =>
    rw [List.takeWhile_cons, h a (by simp)]
    simp [ih fun c hc => h c (by simp [hc])]

lemma dropWhile_eq_self_of {α : Type} {p : α → Bool} {l : List α}
    (h : ∀ c ∈ l, p c = false) : l.dropWhile p = l := by
  cases l with
  | nil => rfl
  | cons a l =>
    rw [List.dropWhile_cons, h a (by simp)]
    simp

lemma pyStripList_eq_self_of {l : List Char}
    (h : ∀ c ∈ l, pyIsSpace c = false) : pyStripList l = l := by
  unfold pyStripList
  rw [dropWhile_eq_self_of h, dropWhile_eq_self_of (by simpa using h), List.reverse_reverse]

/-- queryLoop on a block of attempt indices that all fail the same way:
the typed error surfaces after exactly one attempt per index. -/
lemma queryLoop_const_fail (transport : Nat → Outcome) (m : Nat)
    (o : Outcome) (e : HTTPException)
    (ho : ∀ n, transport n = o)
    (he : (o = .connectionError ∧ e = unreachableError) ∨
          (o = .timeoutError ∧ e = timedOutError) ∨
          (o = .otherError ∧ e = modelError)) :
    ∀ n a, a + n = m → 1 ≤ n →
      queryLoop transport m (List.range' a n) = (.error e, n) := by
  intro n
  induction n with
  | zero => omega
  | succ k ih =>
    intro a ha _
    rw [List.range'_succ]
    rcases he with ⟨rfl, rfl⟩ | ⟨rfl, rfl⟩ | ⟨rfl, rfl⟩ <;>
    · simp only [queryLoop, ho a]
      by_cases hlast : a = m - 1
      · have hk : k = 0 := by omega
        simp [hlast, hk]
      · have hk : 1 ≤ k := by omega
        rw [if_neg hlast, ih (a + 1) (by omega) hk]

/-- queryLoop when every attempt before index N-1 fails and attempt N-1
succeeds: the stripped content is returned after exactly N - a attempts. -/
lemma queryLoop_success_at (transport : Nat → Outcome) (m N : Nat)
    (content : Option String)
    (h1 : 1 ≤ N) (h2 : N ≤ m)
    (hfail : ∀ k, k < N - 1 → (transport k).isFailure = true)
    (hok : transport (N - 1) = .ok content) :
    ∀ n a, a + n = m → a ≤ N - 1 →
      queryLoop transport m (List.range' a n) =
        (.ok (some (pyStrip (content.getD ""))), N - a) := by
  intro n
  induction n with
  | zero => omega
  | succ k ih =>
    intro a ha haN
    rw [List.range'_succ]
    by_cases hlast : a = N - 1
    · subst hlast
      simp only [queryLoop, hok]
      have hN1 : N - (N - 1) = 1 := by omega
      rw [hN1]
    · have haN' : a < N - 1 := by omega
      have hfa := hfail a haN'
      have hnotlast : ¬ a = m - 1 := by omega
      cases hta : transport a with
      | ok c => rw [hta] at hfa; simp [Outcome.isFailure] at hfa
      | connectionError =>
        simp only [queryLoop, hta]
        rw [if_neg hnotlast, ih (a + 1) (by omega) (by omega)]
        simp
        omega
      | timeoutError =>
        simp only [queryLoop, hta]
        rw [if_neg hnotlast, ih (a + 1) (by omega) (by omega)]
        simp
        omega
      | otherError =>
        simp only [queryLoop, hta]
        rw [if_neg hnotlast, ih (a + 1) (by omega) (by omega)]
        simp
        omega

/-- queryLoop on a non-empty block of attempt indices never returns the
Python-None value. -/
lemma queryLoop_ne_none (transport : Nat → Outcome) (m : Nat) :
    ∀ n a, a + n = m → 1 ≤ n →
      (queryLoop transport m (List.range' a n)).1 ≠ .ok none := by
  intro n
  induction n with
  | zero => omega
  | succ k ih =>
    intro a ha _
    rw [List.range'_succ]
    cases hta : transport a with
    | ok c => simp [queryLoop, hta]
    | connectionError =>
      simp only [queryLoop, hta]
      by_cases hlast : a = m - 1
      · simp [hlast]
      · have hk : 1 ≤ k := by omega
        rw [if_neg hlast]
        simpa using ih (a + 1) (by omega) hk
    | timeoutError =>
      simp only [queryLoop, hta]
      by_cases hlast : a = m - 1
      · simp [hlast]
      · have hk : 1 ≤ k := by omega
        rw [if_neg hlast]
        simpa using ih (a + 1) (by omega) hk
    | otherError =>
      simp only [queryLoop, hta]
      by_cases hlast : a = m - 1
      · simp [hlast]
      · have hk : 1 ≤ k := by omega
        rw [if_neg hlast]
        simpa using ih (a + 1) (by omega) hk

/-- A first-attempt success returns the stripped content after one attempt. -/
lemma queryRun_first_ok (transport : Nat → Outcome) (m : Nat)
    (content : Option String) (hm : 1 ≤ m) (h : transport 0 = .ok content) :
    queryRun transport m = (.ok (some (pyStrip (content.getD ""))), 1) := by
  obtain ⟨m', rfl⟩ : ∃ m', m = m' + 1 := ⟨m - 1, by omega⟩
  rw [queryRun, List.range_eq_range', List.range'_succ]
  simp [queryLoop, h]

/-- C2: for every prompt and every max_retries ≥ 1, if every attempt fails
with the same transport failure kind, query_ollama makes exactly
max_retries attempts and only then fails with the corresponding typed
error: 503 Unreachable for connection-refused, 504 TimedOut for timeout. -/
theorem query_exhausts_retries (prompt : String) (transport : Nat → Outcome)
    (max_retries : Nat) (hm : 1 ≤ max_retries) :
    ((∀ n, transport n = .connectionError) →
      query_ollama prompt transport max_retries = .error unreachableError ∧
      query_ollama_attempts prompt transport max_retries = max_retries) ∧
    ((∀ n, transport n = .timeoutError) →
      query_ollama prompt transport max_retries = .error timedOutError ∧
      query_ollama_attempts prompt transport max_retries = max_retries) := by
  constructor
  · intro ho
    have h := queryLoop_const_fail transport max_retries .connectionError
      unreachableError ho (Or.inl ⟨rfl, rfl⟩) max_retries 0 (by omega) hm
    rw [← List.range_eq_range'] at h
    exact ⟨congrArg Prod.fst h, congrArg Prod.snd h⟩
  · intro ho
    have h := queryLoop_const_fail transport max_retries .timeoutError
      timedOutError ho (Or.inr (Or.inl ⟨rfl, rfl⟩)) max_retries 0 (by omega) hm
    rw [← List.range_eq_range'] at h
    exact ⟨congrArg Prod.fst h, congrArg Prod.snd h⟩

/-- Witness for query_exhausts_retries at max_retries = 3. -/
theorem query_exhausts_retries_witness :
    (query_ollama "p" (fun _ => Outcome.connectionError) 3 = .error unreachableError ∧
      query_ollama_attempts "p" (fun _ => Outcome.connectionError) 3 = 3) ∧
    (query_ollama "p" (fun _ => Outcome.timeoutError) 3 = .error timedOutError ∧
      query_ollama_attempts "p" (fun _ => Outcome.timeoutError) 3 = 3) :=
  ⟨(query_exhausts_retries "p" (fun _ => Outcome.connectionError) 3 (by decide)).1
      (fun _ => rfl),
    (query_exhausts_retries "p" (fun _ => Outcome.timeoutError) 3 (by decide)).2
      (fun _ => rfl)⟩

/-- C4: if the transport fails on the first N-1 attempts and succeeds on
attempt N (N ≤ max_retries), query_ollama returns the success value after
exactly N attempts: the bounded retry loop recovers from transient
transport failures. -/
theorem query_retry_recovers (prompt : String) (transport : Nat → Outcome)
    (max_retries N : Nat) (content : Option String)
    (h1 : 1 ≤ N) (h2 : N ≤ max_retries)
    (hfail : ∀ k, k < N - 1 → (transport k).isFailure = true)
    (hok : transport (N - 1) = .ok content) :
    query_ollama prompt transport max_retries =
      .ok (some (pyStrip (content.getD ""))) ∧
    query_ollama_attempts prompt transport max_retries = N := by
  have h := queryLoop_success_at transport max_retries N content h1 h2 hfail hok
    max_retries 0 (by omega) (by omega)
  rw [← List.range_eq_range'] at h
  exact ⟨congrArg Prod.fst h, by simpa using congrArg Prod.snd h⟩

/-- Witness for query_retry_recovers: two timeouts then success, N = 3. -/
theorem query_retry_recovers_witness :
    query_ollama "p"
        (fun n => if n < 2 then Outcome.timeoutError else Outcome.ok (some "ok")) 3 =
      .ok (some "ok") ∧
    query_ollama_attempts "p"
        (fun n => if n < 2 then Outcome.timeoutError else Outcome.ok (some "ok")) 3 = 3 :=
  query_retry_recovers "p"
    (fun n => if n < 2 then Outcome.timeoutError else Outcome.ok (some "ok"))
    3 3 (some "ok") (by decide) (by decide)
    (fun k hk => by
      have : k = 0 ∨ k = 1 := by omega
      rcases this with rfl | rfl <;> rfl)
    rfl

/-- C3 counterexample: the server's raw response text " raw " is returned
trimmed to "raw" (main.py line 41 applies .strip()), so query does not
return it exactly as received. -/
theorem query_trims_counterexample :
    query_ollama "p" (fun _ => Outcome.ok (some " raw ")) 3 = .ok (some "raw") ∧
    " raw " ≠ "raw" :=
  ⟨rfl, by decide⟩

/-- C3 amended: on a successful call, query_ollama returns the server's
response text with leading and trailing whitespace stripped, or the empty
string when the server response contains no content field. -/
theorem query_success_strips (prompt : String) (transport : Nat → Outcome)
    (max_retries : Nat) (content : Option String)
    (hm : 1 ≤ max_retries) (h0 : transport 0 = .ok content) :
    query_ollama prompt transport max_retries =
      .ok (some (pyStrip (content.getD ""))) ∧
    (content = none →
      query_ollama prompt transport max_retries = .ok (some "")) := by
  have h := queryRun_first_ok transport max_retries content hm h0
  refine ⟨congrArg Prod.fst h, ?_⟩
  rintro rfl
  exact congrArg Prod.fst h

/-- Witness for query_success_strips: a padded response is stripped and a
missing content field yields the empty string. -/
theorem query_success_strips_witness :
    query_ollama "p" (fun _ => Outcome.ok (some " raw\ntail ")) 3 =
      .ok (some "raw\ntail") ∧
    query_ollama "p" (fun _ => Outcome.ok none) 3 = .ok (some "") :=
  ⟨(query_success_strips "p" (fun _ => Outcome.ok (some " raw\ntail ")) 3
      (some " raw\ntail ") (by decide) rfl).1,
    (query_success_strips "p" (fun _ => Outcome.ok none) 3 none
      (by decide) rfl).2 rfl⟩

/-- C9: with max_retries = 0 the retry loop body never executes and
query_ollama returns Python None (neither a string nor a typed error)
after zero attempts; with max_retries ≥ 1 it never returns None, so the
string contract is total exactly under max_retries ≥ 1. -/
theorem query_zero_retries_returns_none (prompt : String)
    (transport : Nat → Outcome) :
    query_ollama prompt transport 0 = .ok none ∧
    query_ollama_attempts prompt transport 0 = 0 ∧
    ∀ m, 1 ≤ m → query_ollama prompt transport m ≠ .ok none := by
  refine ⟨rfl, rfl, fun m hm => ?_⟩
  have h := queryLoop_ne_none transport m m 0 (by omega) hm
  rwa [← List.range_eq_range'] at h

/-- Witness for query_zero_retries_returns_none at a concrete transport. -/
theorem query_zero_retries_returns_none_witness :
    query_ollama "p" (fun _ => Outcome.connectionError) 0 = .ok none ∧
    query_ollama "p" (fun _ => Outcome.connectionError) 1 ≠ .ok none :=
  ⟨(query_zero_retries_returns_none "p" (fun _ => Outcome.connectionError)).1,
    (query_zero_retries_returns_none "p" (fun _ => Outcome.connectionError)).2.2
      1 (by decide)⟩

/-- C1: for a non-empty review, if any one of the three sequential
query_ollama invocations fails, analyze_review fails with that call's
HTTPException propagated unchanged, issues none of the later invocations,
and returns no AnalysisResult. -/
theorem analyze_aborts_on_query_error (text : String) (env : Nat → Nat → Outcome)
    (hne : pyStrip text ≠ "") :
    (∀ e, (queryRun (env 0) 3).1 = .error e →
      (analyze_review text env).result = .error e ∧
      (analyze_review text env).queries = 1) ∧
    (∀ s1 e, (queryRun (env 0) 3).1 = .ok (some s1) →
      (queryRun (env 1) 3).1 = .error e →
      (analyze_review text env).result = .error e ∧
      (analyze_review text env).queries = 2) ∧
    (∀ s1 s2 e, (queryRun (env 0) 3).1 = .ok (some s1) →
      (queryRun (env 1) 3).1 = .ok (some s2) →
      (queryRun (env 2) 3).1 = .error e →
      (analyze_review text env).result = .error e ∧
      (analyze_review text env).queries = 3) := by
  refine ⟨fun e h0 => ?_, fun s1 e h0 h1 => ?_, fun s1 s2 e h0 h1 h2 => ?_⟩
  · simp [analyze_review, hne, h0]
  · simp [analyze_review, hne, h0, h1]
  · simp [analyze_review, hne, h0, h1, h2]

/-- Witness for analyze_aborts_on_query_error: sentiment call succeeds,
topic call exhausts its retries on non-transport errors and raises the
500 ModelError; analyze propagates it and never issues the summary call. -/
theorem analyze_aborts_on_query_error_witness :
    (analyze_review "Great phone"
        (fun i _ => if i = 0 then Outcome.ok (some "Positive") else Outcome.otherError)).result
      = .error modelError ∧
    (analyze_review "Great phone"
        (fun i _ => if i = 0 then Outcome.ok (some "Positive") else Outcome.otherError)).queries
      = 2 :=
  (analyze_aborts_on_query_error "Great phone"
      (fun i _ => if i = 0 then Outcome.ok (some "Positive") else Outcome.otherError)
      (by decide)).2.1 "Positive" modelError rfl rfl

/-- C5: analyze_review on empty or whitespace-only review text fails with
the 400 EmptyInput error and issues zero query invocations and zero HTTP
attempts. -/
theorem analyze_rejects_empty_input (text : String) (env : Nat → Nat → Outcome)
    (h : pyStrip text = "") :
    (analyze_review text env).result = .error emptyInputError ∧
    (analyze_review text env).queries = 0 ∧
    (analyze_review text env).attempts = 0 := by
  simp [analyze_review, h]

/-- Witness for analyze_rejects_empty_input on a whitespace-only text. -/
theorem analyze_rejects_empty_input_witness :
    (analyze_review " \t\n " (fun _ _ => Outcome.ok (some "a"))).result
      = .error emptyInputError ∧
    (analyze_review " \t\n " (fun _ _ => Outcome.ok (some "a"))).queries = 0 ∧
    (analyze_review " \t\n " (fun _ _ => Outcome.ok (some "a"))).attempts = 0 :=
  analyze_rejects_empty_input " \t\n " (fun _ _ => Outcome.ok (some "a")) (by decide)

/-- C10: if the server responds successfully but with a missing or empty
content field on all three calls, analyze_review succeeds with an
AnalysisResult of three empty strings, issuing exactly one HTTP attempt
per call (no retry, no error at any layer). -/
theorem analyze_empty_model_response (text : String) (env : Nat → Nat → Outcome)
    (hne : pyStrip text ≠ "")
    (henv : ∀ i n, env i n = .ok none ∨ env i n = .ok (some "")) :
    (analyze_review text env).result = .ok ⟨"", "", ""⟩ ∧
    (analyze_review text env).queries = 3 ∧
    (analyze_review text env).attempts = 3 := by
  have key : ∀ i, queryRun (env i) 3 = (.ok (some ""), 1) := by
    intro i
    rcases henv i 0 with h | h
    · exact queryRun_first_ok (env i) 3 none (by omega) h
    · exact queryRun_first_ok (env i) 3 (some "") (by omega) h
  simp [analyze_review, hne, key 0, key 1, key 2, clean]
  all_goals decide

/-- Witness for analyze_empty_model_response with a bodyless server. -/
theorem analyze_empty_model_response_witness :
    (analyze_review "Great phone" (fun _ _ => Outcome.ok none)).result
      = .ok ⟨"", "", ""⟩ ∧
    (analyze_review "Great phone" (fun _ _ => Outcome.ok none)).queries = 3 ∧
    (analyze_review "Great phone" (fun _ _ => Outcome.ok none)).attempts = 3 :=
  analyze_empty_model_response "Great phone" (fun _ _ => Outcome.ok none)
    (by decide) (fun _ _ => Or.inl rfl)


/-- C6: the response clean-up returns the first line (the text before the
first newline) with leading and trailing whitespace removed, performs no
validation against any expected value set (a newline-free label with no
surrounding whitespace passes through unchanged), and in particular maps
the two-line string whose first line is Positive to "Positive". -/
theorem normalize_first_line_no_validation (s : String) :
    clean s = pyStrip ⟨s.data.takeWhile (fun c => c ≠ '\n')⟩ ∧
    clean "Positive\nBecause the item arrived quickly" = "Positive" ∧
    (∀ t : String, (∀ c ∈ t.data, c ≠ '\n' ∧ pyIsSpace c = false) →
      clean t = t) := by
  refine ⟨?_, rfl, fun t ht => ?_⟩
  · simp only [clean, pySplitNl_headD]
  · simp only [clean, pySplitNl_headD]
    rw [takeWhile_eq_self_of (fun c hc => by simp [(ht c hc).1])]
    show pyStrip ⟨t.data⟩ = t
    simp only [pyStrip]
    rw [pyStripList_eq_self_of (fun c hc => (ht c hc).2)]

/-- Witness for normalize_first_line_no_validation: the out-of-vocabulary
label Mixed passes through unchanged and the two-line example yields its
first line. -/
theorem normalize_first_line_no_validation_witness :
    clean "Mixed" = "Mixed" ∧
    clean "Positive\nBecause the item arrived quickly" = "Positive" :=
  ⟨(normalize_first_line_no_validation "Mixed").2.2 "Mixed" (by decide),
    (normalize_first_line_no_validation "Mixed").2.1⟩

/-- C7: for every non-empty review text the built prompt contains the
review text verbatim (as a contiguous substring of its character list)
for every AnalysisKind, and the Sentiment prompt asks for exactly one of
Positive, Neutral, or Negative. -/
theorem buildPrompt_embeds_review_text (text : String) (hne : pyStrip text ≠ "") :
    (∀ kind : AnalysisKind, text.data <:+: (buildPrompt text kind).data) ∧
    ("respond with only one word: Positive, Neutral, or Negative".data <:+:
      (buildPrompt text AnalysisKind.Sentiment).data) := by
  constructor
  · intro kind
    cases kind with
    | Sentiment =>
      exact ⟨"Analyze the sentiment of this product review and respond with only one word: Positive, Neutral, or Negative.\n\nReview: \"".data,
        "\"\n\nSentiment:".data,
        by rfl⟩
    | Topic =>
      exact ⟨"Identify the main topic or issue discussed in this product review. Choose from these categories or provide a brief 2-3 word description:\n- Product Quality\n- Delivery/Shipping  \n- Price/Value\n- Customer Service\n- Design/Appearance\n- Functionality\n- Durability\n\nReview: \"".data,
        "\"\n\nMain Topic:".data,
        by rfl⟩
    | Summary =>
      exact ⟨"Summarize this product review in one concise sentence (maximum 15 words):\n\nReview: \"".data,
        "\"\n\nSummary:".data,
        by rfl⟩
  · refine ⟨"Analyze the sentiment of this product review and ".data,
      (".\n\nReview: \"" ++ (text ++ "\"\n\nSentiment:")).data, ?_⟩
    rfl

/-- Witness for buildPrompt_embeds_review_text at a concrete review text. -/
theorem buildPrompt_embeds_review_text_witness :
    pyStrip "Great phone" ≠ "" ∧
    "Great phone".data <:+: (buildPrompt "Great phone" AnalysisKind.Topic).data ∧
    "respond with only one word: Positive, Neutral, or Negative".data <:+:
      (buildPrompt "Great phone" AnalysisKind.Sentiment).data :=
  ⟨by decide,
    (buildPrompt_embeds_review_text "Great phone" (by decide)).1 AnalysisKind.Topic,
    (buildPrompt_embeds_review_text "Great phone" (by decide)).2⟩

/-- C8 counterexample: 301 is not a 2xx status, yet health_check reports
healthy on a 301 probe response, because raise_for_status only raises for
statuses 400-599. -/
theorem health_check_non2xx_healthy :
    (301 < 200 ∨ 300 ≤ 301) ∧
    health_check (ProbeOutcome.response 301) = ⟨"healthy", "connected"⟩ :=
  ⟨Or.inr (by decide), rfl⟩

/-- C8 amended: health_check never propagates an error (it always returns
one of the two status bodies); it reports healthy exactly when the probe
returned a response whose status does not trigger raise_for_status
(outside 400-599), and any probe exception or 4xx/5xx status yields
unhealthy. -/
theorem health_check_never_raises (p : ProbeOutcome) :
    (health_check p = ⟨"healthy", "connected"⟩ ∨
      health_check p = ⟨"unhealthy", "disconnected"⟩) ∧
    (health_check p = ⟨"healthy", "connected"⟩ ↔
      ∃ status, p = .response status ∧ raise_for_status_raises status = false) := by
  constructor
  · cases p with
    | response s =>
      simp only [health_check]
      split
      · exact Or.inr rfl
      · exact Or.inl rfl
    | connectionError => exact Or.inr rfl
    | timeoutError => exact Or.inr rfl
    | otherError => exact Or.inr rfl
  · constructor
    · intro h
      cases p with
      | response s =>
        refine ⟨s, rfl, ?_⟩
        cases hr : raise_for_status_raises s with
        | false => rfl
        | true => simp [health_check, hr] at h
      | connectionError => simp [health_check] at h
      | timeoutError => simp [health_check] at h
      | otherError => simp [health_check] at h
    · rintro ⟨s, rfl, hr⟩
      simp [health_check, hr]

end ReviewAnalyzer
